import Mathlib

/-!
Shallow embedding of `src/app.py` (mortality dashboard ETL pipeline and
aggregation callback).

Modelling conventions:
* A pandas cell is `Cell := Option String`: `none` models NaN, `some s` a
  scalar already in string form.  `astype(str)` turns NaN into the literal
  string "nan", which `cellToStr` reproduces.
* `pd.to_numeric(..., errors := coerce)` and Python `int(float(s))` are both
  modelled by `pyFloatInt`, an exact decimal-numeral parser with truncation
  toward zero; values beyond the IEEE-double finite range are rejected the
  way `float` overflow to infinity makes the Python code fall into its
  fallback branch.  Binary rounding of doubles is not modelled (it is
  irrelevant for in-range month and age-group codes), and neither are the
  Python-specific numeral spellings "inf", "nan" and underscore separators,
  all of which the surrounding code treats like parse failures anyway.
* Python `str.strip()` is `stripStr` (ASCII whitespace; the data at hand is
  ASCII-spaced).
* A pandas left merge is `flatMap`-style row multiplication: every left row
  yields one output row per matching right row, or a single row with NaN
  payload when nothing matches, keeping left order (and right order within
  one left row), exactly as `df.merge(..., how := left)` does.
* `groupby(k).size()` drops NaN keys (pandas `dropna := True`); group keys
  are kept in first-appearance order here, whereas pandas sorts them — no
  stated property depends on the key order, only on the multiset of counts.
-/

namespace App

/-! ### String utilities (Python `strip`, `str(int)`) -/

def isSpace (c : Char) : Bool :=
  c == ' ' || c == '\t' || c == '\n' || c == '\r' || c == '\x0b' || c == '\x0c'

/-- Python `str.strip()` over ASCII whitespace. -/
def stripStr (s : String) : String :=
  ⟨((s.data.dropWhile isSpace).reverse.dropWhile isSpace).reverse⟩

/-- Decimal digits of a natural number (fuel-based, fuel `n+1` suffices). -/
def natStrAux : Nat → Nat → List Char
  | 0, _ => []
  | fuel + 1, n =>
    if n < 10 then [Nat.digitChar n]
    else natStrAux fuel (n / 10) ++ [Nat.digitChar (n % 10)]

/-- Python `str` of a nonnegative integer. -/
def natStr (n : Nat) : String := ⟨natStrAux (n + 1) n⟩

/-- Python `str` of an integer. -/
def intStr (i : Int) : String :=
  if i < 0 then "-" ++ natStr i.natAbs else natStr i.natAbs

/-! ### Python float parsing, `int(float(s))`, `pd.to_numeric` -/

def digitsToNat (ds : List Char) : Nat :=
  ds.foldl (fun a c => a * 10 + (c.toNat - 48)) 0

def parseSign : List Char → Bool × List Char
  | '-' :: t => (true, t)
  | '+' :: t => (false, t)
  | l => (false, l)

def parseDigits (l : List Char) : List Char × List Char :=
  (l.takeWhile Char.isDigit, l.dropWhile Char.isDigit)

/-- Exponent suffix of a float literal; `some e` on success (empty input
means exponent 0), `none` on trailing garbage. -/
def parseExp : List Char → Option Int
  | [] => some 0
  | e :: t =>
    if e == 'e' || e == 'E' then
      let (n, t2) := parseSign t
      let (ds, t3) := parseDigits t2
      if ds.isEmpty || !t3.isEmpty then none
      else some (if n then -(digitsToNat ds : Int) else (digitsToNat ds : Int))
    else none

/-- `m * 10^scale` truncated toward zero (for nonnegative `m`). -/
def truncScaled (m : Nat) (scale : Int) : Nat :=
  if 0 ≤ scale then m * 10 ^ scale.toNat else m / 10 ^ (-scale).toNat

/-- `int(float(s))` for a finite decimal numeral, `none` when `float(s)`
raises or yields an infinity (so the calling code takes its fallback
branch).  Truncation toward zero matches Python `int()`. -/
def pyFloatInt (s : String) : Option Int :=
  let l := (stripStr s).data
  let (neg, l1) := parseSign l
  let (ds1, l2) := parseDigits l1
  let (ds2, l3) :=
    match l2 with
    | '.' :: t => parseDigits t
    | _ => ([], l2)
  if ds1.isEmpty && ds2.isEmpty then none
  else
    match parseExp l3 with
    | none => none
    | some e =>
      let m := digitsToNat (ds1 ++ ds2)
      let scale : Int := e - (ds2.length : Int)
      let isInf :=
        if 0 ≤ scale then (2 : Nat) ^ 1024 ≤ m * 10 ^ scale.toNat
        else (2 : Nat) ^ 1024 * 10 ^ (-scale).toNat ≤ m
      if isInf then none
      else
        let v := truncScaled m scale
        some (if neg then -(v : Int) else (v : Int))

/-! ### Cells -/

/-- A pandas cell: `none` is NaN. -/
abbrev Cell := Option String

/-- Python `str(value)`: NaN prints as "nan". -/
def cellToStr : Cell → String
  | some s => s
  | none => "nan"

/-- `.astype(str).str.strip()` as a string result (never NaN). -/
def astypeStr (c : Cell) : String := stripStr (cellToStr c)

/-- `.astype(str).str.strip()` as a cell. -/
def astypeStrStrip (c : Cell) : Cell := some (astypeStr c)

/-- `Series.fillna(dflt)` on one cell. -/
def fillna (dflt : String) (c : Cell) : Cell :=
  match c with
  | none => some dflt
  | some s => some s

/-- `Series.replace("", repl)` on one cell (NaN untouched, app.py line 155). -/
def replaceEmpty (repl : String) (c : Cell) : Cell :=
  match c with
  | none => none
  | some s => if s = "" then some repl else some s

/-- `pd.to_numeric(cell, errors := coerce).fillna(0).astype(int)`
(app.py line 103). -/
def toNumericInt (c : Cell) : Int :=
  match c with
  | none => 0
  | some s => (pyFloatInt s).getD 0

/-! ### Age-group lookup (app.py lines 160-197) -/

/-- The `age_map` dict of app.py, in source order. -/
def age_map : List (String × String) :=
  [("0", "Mortalidad neonatal 0-4"),
   ("1", "Mortalidad neonatal 0-4"),
   ("2", "Mortalidad neonatal 0-4"),
   ("3", "Mortalidad neonatal 0-4"),
   ("4", "Mortalidad neonatal 0-4"),
   ("5", "Mortalidad infantil 1-11 meses"),
   ("6", "Mortalidad infantil 1-11 meses"),
   ("7", "Primera infancia 1-4"),
   ("8", "Primera infancia 1-4"),
   ("9", "Niñez 5-14"),
   ("10", "Niñez 5-14"),
   ("11", "Adolescencia 15-19"),
   ("12", "Juventud 20-29"),
   ("13", "Juventud 20-29"),
   ("14", "Adultez temprana 30-44"),
   ("15", "Adultez temprana 30-44"),
   ("16", "Adultez temprana 30-44"),
   ("17", "Adultez intermedia 45-59"),
   ("18", "Adultez intermedia 45-59"),
   ("19", "Adultez intermedia 45-59"),
   ("20", "Vejez 60-84"),
   ("21", "Vejez 60-84"),
   ("22", "Vejez 60-84"),
   ("23", "Vejez 60-84"),
   ("24", "Vejez 60-84"),
   ("25", "Longevidad 85+"),
   ("26", "Longevidad 85+"),
   ("27", "Longevidad 85+"),
   ("28", "Longevidad 85+"),
   ("29", "Edad desconocida / Sin información")]

/-- `age_map.get(k, "Sin info")`. -/
def ageLookup (k : String) : String := (age_map.lookup k).getD "Sin info"

/-- `map_age` of app.py: `str(int(float(code)))` when that parses, else the
stripped string form, looked up in `age_map` with default "Sin info". -/
def map_age (code : String) : String :=
  match pyFloatInt code with
  | some k => ageLookup (intStr k)
  | none => ageLookup (stripStr code)

/-! ### Raw tables, column discovery (app.py lines 59-85) -/

/-- A loaded spreadsheet: column names plus rows as name-to-cell maps. -/
structure RawTable where
  cols : List String
  rows : List (List (String × Cell))
deriving DecidableEq

/-- `row[c]` (missing column reads as NaN; the app only reads columns that
`find_col` certified present). -/
def getCell (row : List (String × Cell)) (c : String) : Cell :=
  match row.find? (fun p => p.1 == c) with
  | some p => p.2
  | none => none

/-- `df.columns = [str(c).strip() for c in df.columns]` (lines 59-61). -/
def stripCols (t : RawTable) : RawTable :=
  ⟨t.cols.map stripStr, t.rows.map (fun row => row.map (fun p => (stripStr p.1, p.2)))⟩

/-- `find_col` of app.py: the first candidate present among the columns. -/
def find_col (t : RawTable) (cands : List String) : Option String :=
  cands.find? (fun c => t.cols.contains c)

def NOFETAL_cod_depto (t : RawTable) : Option String :=
  find_col t ["COD_DEPARTAMENTO", "COD_DPTO", "COD_DEPTO", "COD_DANE"]
def NOFETAL_cod_mpio (t : RawTable) : Option String :=
  find_col t ["COD_MUNICIPIO", "COD_MPIO", "COD_MPIO_A", "COD_MUN"]
def NOFETAL_sexo (t : RawTable) : Option String := find_col t ["SEXO"]
def NOFETAL_mes (t : RawTable) : Option String := find_col t ["MES"]
def NOFETAL_grupoedad (t : RawTable) : Option String :=
  find_col t ["GRUPO_EDAD1", "GRUPO_EDAD"]
def NOFETAL_codmuerte (t : RawTable) : Option String :=
  find_col t ["COD_MUERTE", "COD_MUERTE", "COD_MUER"]

def DIV_cod_depto (t : RawTable) : Option String :=
  find_col t ["COD_DEPARTAMENTO", "COD_DEPTO", "COD_DANE"]
def DIV_cod_mpio (t : RawTable) : Option String :=
  find_col t ["COD_MUNICIPIO", "COD_MPIO"]
def DIV_depto (t : RawTable) : Option String :=
  find_col t ["DEPARTAMENTO", "NOMBRE_DEPARTAMENTO", "NOMBRE_DPT"]
def DIV_mpio (t : RawTable) : Option String :=
  find_col t ["MUNICIPIO", "NOMBRE_MUNICIPIO"]

def CODES_code_col (t : RawTable) : Option String :=
  find_col t ["CÓDIGO", "CODIGO", "Código", "Código_CIE", "Código_CIE10", "Unnamed: 0"]
def CODES_name_col (t : RawTable) : Option String :=
  find_col t ["NOMBRE", "NOMBRE_CAUSA", "DESCRIPCION", "NOMBRE_CIE", "Descripcion", "Nombre"]

/-! ### Record Normalizer (app.py lines 90-120) -/

/-- The six canonical base columns built at lines 92-120. -/
structure PreRec where
  dept_code : Cell
  mpio_code : Cell
  mes : Option Int
  sexo : Cell
  grupo_edad : Cell
  cod_muerte : Cell
deriving DecidableEq

/-- One string-typed canonical column: `astype(str).str.strip()` of the
resolved source column, or the constant default. -/
def strCol (oc : Option String) (dflt : String) (row : List (String × Cell)) : Cell :=
  match oc with
  | some c => astypeStrStrip (getCell row c)
  | none => some dflt

/-- The `MES_NUM` column: numeric coercion with 0 default (lines 102-105). -/
def mesVal (oc : Option String) (row : List (String × Cell)) : Option Int :=
  match oc with
  | some c => some (toNumericInt (getCell row c))
  | none => some 0

def normRow (t : RawTable) (row : List (String × Cell)) : PreRec :=
  { dept_code := strCol (NOFETAL_cod_depto t) "" row
    mpio_code := strCol (NOFETAL_cod_mpio t) "" row
    mes := mesVal (NOFETAL_mes t) row
    sexo := strCol (NOFETAL_sexo t) "No disponible" row
    grupo_edad := strCol (NOFETAL_grupoedad t) "" row
    cod_muerte := strCol (NOFETAL_codmuerte t) "" row }

/-- One canonical base record per mortality row, in row order. -/
def normalize (t : RawTable) : List PreRec := t.rows.map (normRow t)

/-! ### Geography Joiner (app.py lines 125-139) -/

/-- One Divipola row restricted to the four resolved columns; the code
columns are `astype(str).str.strip()`-normalized (lines 126-127), the name
columns are left as raw cells. -/
structure GeoRow where
  dcode : String
  mcode : String
  dname : Cell
  mname : Cell
deriving DecidableEq

/-- The prepared geography rows, provided all four columns resolved
(line 125); `none` models the skipped-join branch. -/
def divipolaRows (dv : RawTable) : Option (List GeoRow) :=
  match DIV_cod_depto dv, DIV_cod_mpio dv, DIV_depto dv, DIV_mpio dv with
  | some cd, some cm, some nd, some nm =>
    some (dv.rows.map (fun row =>
      ⟨astypeStr (getCell row cd), astypeStr (getCell row cm),
       getCell row nd, getCell row nm⟩))
  | _, _, _, _ => none

/-- A canonical record after the geography join: `DEPARTAMENTO` and
`MUNICIPIO` attached (lines 135-139). -/
structure GeoRec where
  base : PreRec
  departamento : Cell
  municipio : Cell
deriving DecidableEq

/-- The merge key predicate of lines 130-131: exact string equality of the
trimmed codes (NaN keys never match, as in pandas). -/
def geoKeyMatch (r : PreRec) (g : GeoRow) : Bool :=
  decide (r.dept_code = some g.dcode) && decide (r.mpio_code = some g.mcode)

/-- `df.merge(divipola, how := left)` followed by the two `fillna` lines:
each left row yields one output per matching geography row (in geography
order), or a single sentinel-named output when nothing matches. -/
def geoMerge : List PreRec → List GeoRow → List GeoRec
  | [], _ => []
  | r :: t, geo =>
    (match geo.filter (geoKeyMatch r) with
     | [] => [⟨r, some "Departamento desconocido", some "Municipio desconocido"⟩]
     | ms => ms.map (fun g =>
         ⟨r, fillna "Departamento desconocido" g.dname,
          fillna "Municipio desconocido" g.mname⟩)) ++ geoMerge t geo

/-- The geography join step, including the skipped-join fallback of
lines 137-139. -/
def geoStep (dv : RawTable) (rs : List PreRec) : List GeoRec :=
  match divipolaRows dv with
  | some geo => geoMerge rs geo
  | none => rs.map (fun r =>
      ⟨r, some "Departamento desconocido", some "Municipio desconocido"⟩)

/-! ### Cause Joiner (app.py lines 144-155) -/

/-- One cause-codes row restricted to the two resolved columns, both
`astype(str).str.strip()`-normalized (lines 145-146). -/
structure CodeRow where
  code : String
  name : String
deriving DecidableEq

/-- The prepared cause rows, provided both columns resolved (line 144). -/
def codesRows (cd : RawTable) : Option (List CodeRow) :=
  match CODES_code_col cd, CODES_name_col cd with
  | some cc, some nc =>
    some (cd.rows.map (fun row => ⟨astypeStr (getCell row cc), astypeStr (getCell row nc)⟩))
  | _, _ => none

/-- A record after the cause join: `CAUSA_NOMBRE` attached. -/
structure CauseRec where
  geo : GeoRec
  causa : Cell
deriving DecidableEq

/-- The merge key predicate of lines 149-150. -/
def causeKeyMatch (r : GeoRec) (c : CodeRow) : Bool :=
  decide (r.base.cod_muerte = some c.code)

/-- `df.merge(codes, how := left)` followed by
`CAUSA_NOMBRE = name.fillna(COD_MUERTE_STR)` (lines 147-153). -/
def causeMerge : List GeoRec → List CodeRow → List CauseRec
  | [], _ => []
  | r :: t, codes =>
    (match codes.filter (causeKeyMatch r) with
     | [] => [⟨r, r.base.cod_muerte⟩]
     | ms => ms.map (fun c => ⟨r, some c.name⟩)) ++ causeMerge t codes

/-- The cause join step, including the skipped-join fallback of line 155:
`CAUSA_NOMBRE = COD_MUERTE_STR.replace("", "No clasificada")`. -/
def causeStep (cd : RawTable) (rs : List GeoRec) : List CauseRec :=
  match codesRows cd with
  | some codes => causeMerge rs codes
  | none => rs.map (fun r => ⟨r, replaceEmpty "No clasificada" r.base.cod_muerte⟩)

/-! ### Final Canonical Record and the whole pipeline -/

/-- A fully enriched canonical record (the columns of `df` the dashboard
reads). -/
structure Record where
  dept_code : Cell
  mpio_code : Cell
  mes : Option Int
  sexo : Cell
  grupo_edad : Cell
  cod_muerte : Cell
  departamento : Cell
  municipio : Cell
  causa_nombre : Cell
  grupo_edad_label : Cell
deriving DecidableEq

/-- `df["GRUPO_EDAD_LABEL"] = df["GRUPO_EDAD1"].apply(map_age)` (line 199)
plus flattening of the join structure. -/
def labelStep (r : CauseRec) : Record :=
  { dept_code := r.geo.base.dept_code
    mpio_code := r.geo.base.mpio_code
    mes := r.geo.base.mes
    sexo := r.geo.base.sexo
    grupo_edad := r.geo.base.grupo_edad
    cod_muerte := r.geo.base.cod_muerte
    departamento := r.geo.departamento
    municipio := r.geo.municipio
    causa_nombre := r.causa
    grupo_edad_label := some (map_age (cellToStr r.geo.base.grupo_edad)) }

/-- The base-column projection of a final record. -/
def recBase (r : Record) : PreRec :=
  ⟨r.dept_code, r.mpio_code, r.mes, r.sexo, r.grupo_edad, r.cod_muerte⟩

/-- The whole startup ETL of app.py (lines 59-199): column-name strip,
normalization, geography join, cause join, age labelling. -/
def pipeline (nf dv cd : RawTable) : List Record :=
  (causeStep (stripCols cd) (geoStep (stripCols dv) (normalize (stripCols nf)))).map labelStep

/-! ### Homicide pattern (app.py line 291):
`str.contains(X9[0-9]|X95|X9)` is an unanchored `re.search`; at each
position the three alternatives are tried in order. -/

/-- First alternative `X9[0-9]` matched at the head of the text. -/
def startsX9digit : List Char → Bool
  | a :: b :: c :: _ => a == 'X' && b == '9' && c.isDigit
  | _ => false

/-- Second alternative `X95` matched at the head of the text. -/
def startsX95 : List Char → Bool
  | a :: b :: c :: _ => a == 'X' && b == '9' && c == '5'
  | _ => false

/-- Third alternative `X9` matched at the head of the text. -/
def startsX9 : List Char → Bool
  | a :: b :: _ => a == 'X' && b == '9'
  | _ => false

/-- `re.search` of the alternation: try every start position. -/
def homSearch : List Char → Bool
  | [] => false
  | l@(_ :: t) => startsX9digit l || startsX95 l || startsX9 l || homSearch t

/-- The homicide filter test on one cause-code string. -/
def homicideMatch (s : String) : Bool := homSearch s.data

/-- Plain substring search for "X9". -/
def x9search : List Char → Bool
  | [] => false
  | l@(_ :: t) => startsX9 l || x9search t

/-- The string contains "X9". -/
def containsX9 (s : String) : Bool := x9search s.data

/-- `str.contains(..., na := False)` on a cell. -/
def homTest : Cell → Bool
  | none => false
  | some s => homicideMatch s

/-! ### Aggregation Engine (app.py lines 275-313) -/

/-- The filter guard of lines 277-278: Python truthiness (`None` and the
empty string are falsy) plus the `_ALL_` sentinel leave the table whole. -/
def applyFilter (rs : List Record) (sel : Option String) : List Record :=
  match sel with
  | none => rs
  | some s =>
    if s ≠ "" ∧ s ≠ "_ALL_" then rs.filter (fun r => decide (r.departamento = some s))
    else rs

/-- `groupby(key).size()`: NaN keys are dropped (pandas default); keys are
listed in first-appearance-based order (pandas sorts them — no stated
property depends on key order). -/
def countByKey {κ : Type} [DecidableEq κ] (key : Record → Option κ)
    (rs : List Record) : List (κ × Nat) :=
  (rs.filterMap key).dedup.map
    (fun k => (k, (rs.filter (fun r => decide (key r = some k))).length))

/-- `sort_values(count, ascending := False)` (stable model of the pandas
sort; ties are deterministic-but-arbitrary in the source too). -/
def sortDesc {κ : Type} (l : List (κ × Nat)) : List (κ × Nat) :=
  l.insertionSort (fun a b => b.2 ≤ a.2)

/-- `sort_values(count)` ascending. -/
def sortAsc {κ : Type} (l : List (κ × Nat)) : List (κ × Nat) :=
  l.insertionSort (fun a b => a.2 ≤ b.2)

def deptKey (r : Record) : Option String := r.departamento
def mesKey (r : Record) : Option Int := r.mes
def muniKey (r : Record) : Option String := r.municipio
def sexoDeptKey (r : Record) : Option (String × String) :=
  match r.departamento, r.sexo with
  | some d, some s => some (d, s)
  | _, _ => none
def edadKey (r : Record) : Option String := r.grupo_edad_label
def causaKey (r : Record) : Option (String × String) :=
  match r.cod_muerte, r.causa_nombre with
  | some c, some n => some (c, n)
  | _, _ => none

/-- The seven aggregate views plus the `geo-msg` output of the callback. -/
structure Views where
  geo_msg : String
  muertes_depto : List (String × Nat)
  muertes_mes : List (Int × Nat)
  top_homicidios : List (String × Nat)
  low10 : List (String × Nat)
  sexo_depto : List ((String × String) × Nat)
  edad : List (String × Nat)
  top_causas : List ((String × String) × Nat)
deriving DecidableEq

/-- `update_all` of app.py (lines 275-313): filter, then the seven
independent grouped counts. -/
def update_all (rs : List Record) (sel : Option String) : Views :=
  let dff := applyFilter rs sel
  { geo_msg := ""
    muertes_depto := countByKey deptKey dff
    muertes_mes := countByKey mesKey dff
    top_homicidios :=
      (sortDesc (countByKey muniKey (dff.filter (fun r => homTest r.cod_muerte)))).take 5
    low10 := (sortAsc (countByKey muniKey dff)).take 10
    sexo_depto := countByKey sexoDeptKey dff
    edad := countByKey edadKey dff
    top_causas := (sortDesc (countByKey causaKey dff)).take 10 }

/-! ### Summary card and page state (app.py lines 225-232, 264-313) -/

/-- The "Resumen rápido" card of lines 228-230: total records, distinct
department names, distinct municipality names (`nunique` ignores NaN).
These are Python f-strings evaluated once, when the layout is built. -/
def summaryCounts (rs : List Record) : Nat × Nat × Nat :=
  (rs.length, (rs.filterMap deptKey).dedup.length, (rs.filterMap muniKey).dedup.length)

/-- What the page shows: the summary card and the tab contents. -/
structure Dashboard where
  resumen : Nat × Nat × Nat
  views : Views
deriving DecidableEq

/-- The page as first served: summary over the full table, views for the
initial dropdown value `_ALL_`. -/
def initialDashboard (rs : List Record) : Dashboard :=
  ⟨summaryCounts rs, update_all rs (some "_ALL_")⟩

/-- Effect of a dropdown selection: the callback (lines 264-273) declares
as Outputs only `geo-msg`, the seven figures and the table, so exactly the
`views` component is replaced; the summary card has no Output and keeps its
startup value. -/
def afterSelect (rs : List Record) (d : Dashboard) (sel : Option String) : Dashboard :=
  { d with views := update_all rs sel }

/-- The distinct department names present in a record table. -/
def deptNames (rs : List Record) : List String := (rs.filterMap deptKey).dedup

/-- Total of a grouped-count aggregate. -/
def totalOf {κ : Type} (l : List (κ × Nat)) : Nat := (l.map Prod.snd).sum

/-! ### Concrete inputs used to witness or refute the claims -/

/-- A loaded-but-empty table, as `safe_read_excel` returns on failure. -/
def emptyT : RawTable := ⟨[], []⟩

def exRow1 : List (String × Cell) :=
  [("COD_DEPARTAMENTO", some "05"), ("COD_MUNICIPIO", some "001"),
   ("MES", some "3"), ("COD_MUERTE", some "X950")]

/-- A one-row mortality table. -/
def exNf : RawTable :=
  ⟨["COD_DEPARTAMENTO", "COD_MUNICIPIO", "MES", "COD_MUERTE"], [exRow1]⟩

/-- A geography table in which two rows share the join key (05, 001). -/
def exDvDup : RawTable :=
  ⟨["COD_DEPARTAMENTO", "COD_MUNICIPIO", "DEPARTAMENTO", "MUNICIPIO"],
   [[("COD_DEPARTAMENTO", some "05"), ("COD_MUNICIPIO", some "001"),
     ("DEPARTAMENTO", some "Antioquia"), ("MUNICIPIO", some "Medellin")],
    [("COD_DEPARTAMENTO", some "05"), ("COD_MUNICIPIO", some "001"),
     ("DEPARTAMENTO", some "Antioquia bis"), ("MUNICIPIO", some "Medellin bis")]]⟩

/-- A geography table with a single row for the key (05, 001). -/
def exDv1 : RawTable :=
  ⟨["COD_DEPARTAMENTO", "COD_MUNICIPIO", "DEPARTAMENTO", "MUNICIPIO"],
   [[("COD_DEPARTAMENTO", some "05"), ("COD_MUNICIPIO", some "001"),
     ("DEPARTAMENTO", some "Antioquia"), ("MUNICIPIO", some "Medellin")]]⟩

/-- A cause table with a single row for code X950. -/
def exCd1 : RawTable :=
  ⟨["CODIGO", "NOMBRE"],
   [[("CODIGO", some "X950"), ("NOMBRE", some "Agresion con disparo")]]⟩

/-- A one-row mortality table whose month value is 13. -/
def exMes13 : RawTable := ⟨["MES"], [[("MES", some "13")]]⟩

/-- The single canonical record `pipeline exNf emptyT emptyT` produces. -/
def exOut : Record :=
  ⟨some "05", some "001", some 3, some "No disponible", some "",
   some "X950", some "Departamento desconocido", some "Municipio desconocido",
   some "X950", some "Sin info"⟩

/-- A fully populated record with the given department, municipality and
cause code. -/
def mkRec (dep muni cod : String) : Record :=
  ⟨some "05", some "001", some 1, some "M", some "7", some cod,
   some dep, some muni, some cod, some "Primera infancia 1-4"⟩

/-- Two records, one of them in a department literally named `_ALL_`. -/
def ex5 : List Record := [mkRec "A" "a" "X95", mkRec "_ALL_" "b" "Y00"]

/-- Two records in ordinary distinct departments. -/
def ex9 : List Record := [mkRec "A" "a" "X95", mkRec "B" "b" "Y00"]

/-- A post-geography-join record with cause code X95. -/
def exGeoX95 : GeoRec :=
  ⟨⟨some "05", some "001", some 1, some "M", some "7", some "X95"⟩,
   some "A", some "a"⟩

/-- The record the cause join yields for `exGeoX95` against an empty cause
table. -/
def exCauseOut : CauseRec := ⟨exGeoX95, some "X95"⟩

/-- The geography rows matching one canonical record, with the skipped-join
branch contributing no rows. -/
def geoMatches (dv : RawTable) (r : PreRec) : List GeoRow :=
  ((divipolaRows dv).getD []).filter (geoKeyMatch r)

/-- The cause rows matching one record, with the skipped-join branch
contributing no rows. -/
def causeMatches (cd : RawTable) (r : GeoRec) : List CodeRow :=
  ((codesRows cd).getD []).filter (causeKeyMatch r)

/-! ## Helper lemmas -/

set_option maxRecDepth 100000

lemma sd_imp : ∀ l : List Char, startsX9digit l = true → startsX9 l = true
  | a :: b :: _ :: _, h => by
    simp only [startsX9digit, Bool.and_eq_true] at h
    simp only [startsX9, Bool.and_eq_true]
    exact h.1
  | [], h => Bool.noConfusion h
  | [_], h => Bool.noConfusion h
  | [_, _], h => Bool.noConfusion h

lemma s95_imp : ∀ l : List Char, startsX95 l = true → startsX9 l = true
  | a :: b :: _ :: _, h => by
    simp only [startsX95, Bool.and_eq_true] at h
    simp only [startsX9, Bool.and_eq_true]
    exact h.1
  | [], h => Bool.noConfusion h
  | [_], h => Bool.noConfusion h
  | [_, _], h => Bool.noConfusion h

lemma homSearch_eq (l : List Char) : homSearch l = x9search l := by
  induction l with
  | nil => rfl
  | cons a t ih =>
    show (((startsX9digit (a :: t) || startsX95 (a :: t)) || startsX9 (a :: t)) || homSearch t)
        = (startsX9 (a :: t) || x9search t)
    rw [ih]
    cases h9 : startsX9 (a :: t) with
    | true => simp [h9]
    | false =>
      have hd : startsX9digit (a :: t) = false := by
        cases hd : startsX9digit (a :: t) with
        | true => rw [sd_imp _ hd] at h9; exact h9
        | false => rfl
      have h95 : startsX95 (a :: t) = false := by
        cases h95 : startsX95 (a :: t) with
        | true => rw [s95_imp _ h95] at h9; exact h9
        | false => rfl
      simp [hd, h95]

lemma fillna_ne_none (dflt : String) (c : Cell) : fillna dflt c ≠ none := by
  cases c <;> simp [fillna]

lemma replaceEmpty_ne_none (repl : String) (c : Cell) (h : c ≠ none) :
    replaceEmpty repl c ≠ none := by
  cases c with
  | none => exact absurd rfl h
  | some s => by_cases hs : s = "" <;> simp [replaceEmpty, hs]

lemma strCol_ne_none (oc : Option String) (dflt : String) (row : List (String × Cell)) :
    strCol oc dflt row ≠ none := by
  cases oc <;> simp [strCol, astypeStrStrip]

lemma mesVal_ne_none (oc : Option String) (row : List (String × Cell)) :
    mesVal oc row ≠ none := by
  cases oc <;> simp [mesVal]

lemma lookup_none_of_not_mem {β : Type} (k : String) (l : List (String × β))
    (h : k ∉ l.map Prod.fst) : l.lookup k = none := by
  induction l with
  | nil => rfl
  | cons p t ih =>
    obtain ⟨a, b⟩ := p
    have h1 : k ≠ a := fun he => h (by simp [he])
    have h2 : k ∉ t.map Prod.fst := fun ht => h (by simp [ht])
    simp only [List.lookup, beq_eq_false_iff_ne.mpr h1]
    exact ih h2

lemma sum_map_zero {α : Type} (l : List α) (f : α → Nat) (h : ∀ a ∈ l, f a = 0) :
    (l.map f).sum = 0 := by
  induction l with
  | nil => rfl
  | cons a t ih =>
    have ht := ih (fun x hx => h x (List.mem_cons_of_mem a hx))
    simp only [List.map_cons, List.sum_cons, h a (List.mem_cons_self a t), ht]

lemma sum_map_add {α : Type} (l : List α) (f g : α → Nat) :
    (l.map (fun a => f a + g a)).sum = (l.map f).sum + (l.map g).sum := by
  induction l with
  | nil => rfl
  | cons a t ih => simp [List.map_cons, List.sum_cons, ih]; omega

lemma sum_indicator {κ : Type} [DecidableEq κ] (ks : List κ) (k0 : κ)
    (hnd : ks.Nodup) (hk : k0 ∈ ks) :
    (ks.map (fun k => if k0 = k then 1 else 0)).sum = 1 := by
  induction ks with
  | nil => cases hk
  | cons a t ih =>
    rcases List.mem_cons.mp hk with h | h
    · subst h
      have hz : ∀ k ∈ t, (if k0 = k then (1 : Nat) else 0) = 0 := by
        intro k hkt
        have hne : k0 ≠ k := by rintro rfl; exact (List.nodup_cons.mp hnd).1 hkt
        simp [hne]
      have h0 := sum_map_zero t _ hz
      simp [h0]
    · have hne : k0 ≠ a := by rintro rfl; exact (List.nodup_cons.mp hnd).1 h
      have h1 := ih (List.nodup_cons.mp hnd).2 h
      simp [hne, h1]

lemma sum_counts {α κ : Type} [DecidableEq κ] (key : α → Option κ) (ks : List κ)
    (rs : List α) (hnd : ks.Nodup) (hcov : ∀ r ∈ rs, ∃ k ∈ ks, key r = some k) :
    (ks.map (fun k => (rs.filter (fun r => decide (key r = some k))).length)).sum
      = rs.length := by
  induction rs with
  | nil => simp
  | cons r t ih =>
    obtain ⟨k0, hk0, hkey⟩ := hcov r (List.mem_cons_self r t)
    have step : (ks.map (fun k =>
        (List.filter (fun r => decide (key r = some k)) (r :: t)).length))
        = ks.map (fun k => (if k0 = k then 1 else 0)
            + (List.filter (fun r => decide (key r = some k)) t).length) := by
      apply List.map_congr_left
      intro k _
      by_cases hek : k0 = k
      · subst hek
        rw [List.filter_cons, if_pos (by simp [hkey])]
        simp only [List.length_cons, if_true, eq_self_iff_true]
        omega
      · have hne2 : ¬ (key r = some k) := by rw [hkey]; simp [hek]
        rw [List.filter_cons, if_neg (by simpa using hne2)]
        simp [hek]
    rw [step, sum_map_add, sum_indicator ks k0 hnd hk0,
      ih (fun x hx => hcov x (List.mem_cons_of_mem r hx))]
    simp only [List.length_cons]
    omega

lemma totalOf_countByKey {κ : Type} [DecidableEq κ] (key : Record → Option κ)
    (rs : List Record) (h : ∀ r ∈ rs, key r ≠ none) :
    totalOf (countByKey key rs) = rs.length := by
  unfold totalOf countByKey
  rw [List.map_map]
  exact sum_counts key _ rs (List.nodup_dedup _) (by
    intro r hr
    cases hkey : key r with
    | none => exact absurd hkey (h r hr)
    | some k =>
      exact ⟨k, List.mem_dedup.mpr (List.mem_filterMap.mpr ⟨r, hr, hkey⟩), rfl⟩)

lemma mem_geoMerge {rs : List PreRec} {geo : List GeoRow} {o : GeoRec}
    (h : o ∈ geoMerge rs geo) :
    o.base ∈ rs ∧ o.departamento ≠ none ∧ o.municipio ≠ none := by
  induction rs with
  | nil => cases h
  | cons r t ih =>
    rw [geoMerge] at h
    rcases List.mem_append.mp h with h1 | h1
    · cases hms : geo.filter (geoKeyMatch r) with
      | nil =>
        rw [hms] at h1
        rcases List.mem_singleton.mp h1 with rfl
        exact ⟨List.mem_cons_self r t, by simp, by simp⟩
      | cons m ms =>
        rw [hms] at h1
        obtain ⟨g, -, rfl⟩ := List.mem_map.mp h1
        exact ⟨List.mem_cons_self r t, fillna_ne_none _ _, fillna_ne_none _ _⟩
    · obtain ⟨hb, hd, hm⟩ := ih h1
      exact ⟨List.mem_cons_of_mem r hb, hd, hm⟩

lemma mem_geoStep {dv : RawTable} {rs : List PreRec} {o : GeoRec}
    (h : o ∈ geoStep dv rs) :
    o.base ∈ rs ∧ o.departamento ≠ none ∧ o.municipio ≠ none := by
  unfold geoStep at h
  cases hdv : divipolaRows dv with
  | some geo => rw [hdv] at h; exact mem_geoMerge h
  | none =>
    rw [hdv] at h
    obtain ⟨r, hr, rfl⟩ := List.mem_map.mp h
    exact ⟨hr, by simp, by simp⟩

lemma mem_causeMerge {rs : List GeoRec} {codes : List CodeRow} {o : CauseRec}
    (h : o ∈ causeMerge rs codes) :
    o.geo ∈ rs ∧
    ((codes.filter (causeKeyMatch o.geo) = [] ∧ o.causa = o.geo.base.cod_muerte) ∨
     (∃ c ∈ codes, o.geo.base.cod_muerte = some c.code ∧ o.causa = some c.name)) := by
  induction rs with
  | nil => cases h
  | cons r t ih =>
    rw [causeMerge] at h
    rcases List.mem_append.mp h with h1 | h1
    · cases hms : codes.filter (causeKeyMatch r) with
      | nil =>
        rw [hms] at h1
        rcases List.mem_singleton.mp h1 with rfl
        exact ⟨List.mem_cons_self r t, Or.inl ⟨hms, rfl⟩⟩
      | cons m ms =>
        rw [hms] at h1
        obtain ⟨c, hc, rfl⟩ := List.mem_map.mp h1
        rw [← hms] at hc
        obtain ⟨hcmem, hkey⟩ := List.mem_filter.mp hc
        refine ⟨List.mem_cons_self r t, Or.inr ⟨c, hcmem, ?_, rfl⟩⟩
        exact of_decide_eq_true hkey
    · obtain ⟨hg, hcase⟩ := ih h1
      exact ⟨List.mem_cons_of_mem r hg, hcase⟩

lemma mem_causeStep {cd : RawTable} {rs : List GeoRec} {o : CauseRec}
    (h : o ∈ causeStep cd rs) :
    o.geo ∈ rs ∧ (o.geo.base.cod_muerte ≠ none → o.causa ≠ none) := by
  unfold causeStep at h
  cases hcd : codesRows cd with
  | some codes =>
    rw [hcd] at h
    obtain ⟨hg, hcase⟩ := mem_causeMerge h
    refine ⟨hg, fun hcod => ?_⟩
    rcases hcase with ⟨-, hc⟩ | ⟨c, -, -, hc⟩
    · rw [hc]; exact hcod
    · rw [hc]; simp
  | none =>
    rw [hcd] at h
    obtain ⟨r, hr, rfl⟩ := List.mem_map.mp h
    exact ⟨hr, fun hcod => replaceEmpty_ne_none _ _ hcod⟩

lemma geoMerge_map_base (rs : List PreRec) (geo : List GeoRow)
    (h : ∀ r ∈ rs, (geo.filter (geoKeyMatch r)).length ≤ 1) :
    (geoMerge rs geo).map (fun o => o.base) = rs := by
  induction rs with
  | nil => rfl
  | cons r t ih =>
    rw [geoMerge, List.map_append,
      ih (fun x hx => h x (List.mem_cons_of_mem r hx))]
    cases hms : geo.filter (geoKeyMatch r) with
    | nil => rfl
    | cons m ms =>
      have hlen := h r (List.mem_cons_self r t)
      rw [hms] at hlen
      cases ms with
      | nil => rfl
      | cons m2 ms2 => simp at hlen

lemma causeMerge_map_geo (rs : List GeoRec) (codes : List CodeRow)
    (h : ∀ r ∈ rs, (codes.filter (causeKeyMatch r)).length ≤ 1) :
    (causeMerge rs codes).map (fun o => o.geo) = rs := by
  induction rs with
  | nil => rfl
  | cons r t ih =>
    rw [causeMerge, List.map_append,
      ih (fun x hx => h x (List.mem_cons_of_mem r hx))]
    cases hms : codes.filter (causeKeyMatch r) with
    | nil => rfl
    | cons m ms =>
      have hlen := h r (List.mem_cons_self r t)
      rw [hms] at hlen
      cases ms with
      | nil => rfl
      | cons m2 ms2 => simp at hlen

lemma geoStep_map_base (dv : RawTable) (rs : List PreRec)
    (h : ∀ r ∈ rs, (geoMatches dv r).length ≤ 1) :
    (geoStep dv rs).map (fun o => o.base) = rs := by
  unfold geoStep
  cases hdv : divipolaRows dv with
  | some geo =>
    refine geoMerge_map_base rs geo (fun r hr => ?_)
    have := h r hr
    rwa [geoMatches, hdv] at this
  | none =>
    rw [List.map_map]
    exact List.map_id rs

lemma causeStep_map_geo (cd : RawTable) (rs : List GeoRec)
    (h : ∀ r ∈ rs, (causeMatches cd r).length ≤ 1) :
    (causeStep cd rs).map (fun o => o.geo) = rs := by
  unfold causeStep
  cases hcd : codesRows cd with
  | some codes =>
    refine causeMerge_map_geo rs codes (fun r hr => ?_)
    have := h r hr
    rwa [causeMatches, hcd] at this
  | none =>
    rw [List.map_map]
    exact List.map_id rs

/-! ## Claim theorems -/

/-- C1 (counterexample): with two geography rows sharing the join key
(05, 001), the single input row yields two canonical records, so the
geography join does add rows when several geography rows share a key. -/
theorem pipeline_dup_key_cex :
    exNf.rows.length = 1 ∧ (pipeline exNf exDvDup emptyT).length = 2 := by
  decide

/-- C1 (amended): provided each normalized record matches at most one
geography row and at most one cause row, the pipeline produces exactly one
canonical record per input row, in input order (its base-column projection
is exactly the normalized input). -/
theorem pipeline_one_record_per_row (nf dv cd : RawTable)
    (hg : ∀ r ∈ normalize (stripCols nf), (geoMatches (stripCols dv) r).length ≤ 1)
    (hc : ∀ r ∈ geoStep (stripCols dv) (normalize (stripCols nf)),
        (causeMatches (stripCols cd) r).length ≤ 1) :
    (pipeline nf dv cd).map recBase = normalize (stripCols nf) ∧
    (pipeline nf dv cd).length = (stripCols nf).rows.length := by
  have h1 := causeStep_map_geo (stripCols cd)
    (geoStep (stripCols dv) (normalize (stripCols nf))) hc
  have h2 := geoStep_map_base (stripCols dv) (normalize (stripCols nf)) hg
  have hmain : (pipeline nf dv cd).map recBase = normalize (stripCols nf) := by
    calc (pipeline nf dv cd).map recBase
        = ((causeStep (stripCols cd)
            (geoStep (stripCols dv) (normalize (stripCols nf)))).map
              (fun o => o.geo)).map (fun o => o.base) := by
          unfold pipeline
          rw [List.map_map, List.map_map]
          rfl
      _ = (geoStep (stripCols dv) (normalize (stripCols nf))).map
            (fun o => o.base) := by rw [h1]
      _ = normalize (stripCols nf) := h2
  refine ⟨hmain, ?_⟩
  have hlen := congrArg List.length hmain
  rw [List.length_map] at hlen
  rw [hlen]
  unfold normalize
  exact List.length_map _ _

/-- C1 (witness): on concrete tables with unique join keys the pipeline is
one record per row, in order. -/
theorem pipeline_one_record_per_row_w :
    (pipeline exNf exDv1 exCd1).map recBase = normalize (stripCols exNf) ∧
    (pipeline exNf exDv1 exCd1).length = (stripCols exNf).rows.length :=
  pipeline_one_record_per_row exNf exDv1 exCd1 (by decide) (by decide)

/-- C2: every field of every canonical record the pipeline produces is
populated (never NaN), whatever source columns exist or are absent: missing
or unmatched data is replaced by the explicit defaults of app.py (empty
string, `No disponible`, 0, `Departamento desconocido`,
`Municipio desconocido`, the raw cause code, `Sin info`). -/
theorem record_fields_nonnull (nf dv cd : RawTable) (r : Record)
    (h : r ∈ pipeline nf dv cd) :
    r.dept_code ≠ none ∧ r.mpio_code ≠ none ∧ r.mes ≠ none ∧ r.sexo ≠ none ∧
    r.grupo_edad ≠ none ∧ r.cod_muerte ≠ none ∧ r.departamento ≠ none ∧
    r.municipio ≠ none ∧ r.causa_nombre ≠ none ∧ r.grupo_edad_label ≠ none := by
  unfold pipeline at h
  obtain ⟨o, ho, rfl⟩ := List.mem_map.mp h
  obtain ⟨hgeo, hcausa⟩ := mem_causeStep ho
  obtain ⟨hbase, hdep, hmun⟩ := mem_geoStep hgeo
  unfold normalize at hbase
  obtain ⟨row, -, hb⟩ := List.mem_map.mp hbase
  have hdc : o.geo.base.dept_code ≠ none := by rw [← hb]; exact strCol_ne_none _ _ _
  have hmc : o.geo.base.mpio_code ≠ none := by rw [← hb]; exact strCol_ne_none _ _ _
  have hms : o.geo.base.mes ≠ none := by rw [← hb]; exact mesVal_ne_none _ _
  have hsx : o.geo.base.sexo ≠ none := by rw [← hb]; exact strCol_ne_none _ _ _
  have hge : o.geo.base.grupo_edad ≠ none := by rw [← hb]; exact strCol_ne_none _ _ _
  have hcm : o.geo.base.cod_muerte ≠ none := by rw [← hb]; exact strCol_ne_none _ _ _
  exact ⟨hdc, hmc, hms, hsx, hge, hcm, hdep, hmun, hcausa hcm, by simp [labelStep]⟩

/-- C2 (witness): the record produced from the concrete one-row table has
every field populated. -/
theorem record_fields_nonnull_w :
    exOut.dept_code ≠ none ∧ exOut.mpio_code ≠ none ∧ exOut.mes ≠ none ∧
    exOut.sexo ≠ none ∧ exOut.grupo_edad ≠ none ∧ exOut.cod_muerte ≠ none ∧
    exOut.departamento ≠ none ∧ exOut.municipio ≠ none ∧
    exOut.causa_nombre ≠ none ∧ exOut.grupo_edad_label ≠ none :=
  record_fields_nonnull exNf emptyT emptyT exOut (by decide)

/-- C3 (counterexample): a parseable month value of 13 is kept as 13, which
is outside `[0, 12]`, so the claimed range invariant fails. -/
theorem mes_range_cex :
    (pipeline exMes13 emptyT emptyT).map (fun r => r.mes) = [some 13] ∧
    ¬ ((13 : Int) ≤ 12) := by
  decide

/-- C3 (amended): every record's month is an integer, never NaN; when the
month column is absent it is the sentinel 0; when present it is the numeric
coercion (`toNumericInt`: parsed-and-truncated value, 0 on NaN or parse
failure) of some source row's month cell.  No `[0, 12]` bound is enforced
by the code. -/
theorem mes_coercion (nf dv cd : RawTable) (r : Record)
    (h : r ∈ pipeline nf dv cd) :
    r.mes ≠ none ∧
    (NOFETAL_mes (stripCols nf) = none → r.mes = some 0) ∧
    (∀ c, NOFETAL_mes (stripCols nf) = some c →
      ∃ row ∈ (stripCols nf).rows, r.mes = some (toNumericInt (getCell row c))) := by
  unfold pipeline at h
  obtain ⟨o, ho, rfl⟩ := List.mem_map.mp h
  obtain ⟨hgeo, -⟩ := mem_causeStep ho
  obtain ⟨hbase, -, -⟩ := mem_geoStep hgeo
  unfold normalize at hbase
  obtain ⟨row, hrow, hb⟩ := List.mem_map.mp hbase
  have hmes : (labelStep o).mes = mesVal (NOFETAL_mes (stripCols nf)) row := by
    show o.geo.base.mes = _
    rw [← hb]
    rfl
  refine ⟨?_, ?_, ?_⟩
  · rw [hmes]; exact mesVal_ne_none _ _
  · intro hnone; rw [hmes, hnone]; rfl
  · intro c hc
    refine ⟨row, hrow, ?_⟩
    rw [hmes, hc]
    rfl

/-- C3 (witness): the concrete record's month respects the coercion
contract. -/
theorem mes_coercion_w :
    exOut.mes ≠ none ∧
    (NOFETAL_mes (stripCols exNf) = none → exOut.mes = some 0) ∧
    (∀ c, NOFETAL_mes (stripCols exNf) = some c →
      ∃ row ∈ (stripCols exNf).rows, exOut.mes = some (toNumericInt (getCell row c))) :=
  mes_coercion exNf emptyT emptyT exOut (by decide)

/-- C4: matching the homicide pattern `X9[0-9]|X95|X9` as an unanchored
case-sensitive substring search is equivalent to containing "X9"; "X95" and
"X900" match, "X88" does not. -/
theorem homicide_pattern_eq_containsX9 :
    (∀ s : String, homicideMatch s = containsX9 s) ∧
    homicideMatch "X95" = true ∧ homicideMatch "X900" = true ∧
    homicideMatch "X88" = false :=
  ⟨fun s => homSearch_eq s.data, by decide, by decide, by decide⟩

/-- C5 (counterexample): when a department is literally named `_ALL_`, the
per-department invocation for that name is unfiltered, so the sum of
per-department totals (3) exceeds the all-departments total (2). -/
theorem dept_partition_cex :
    totalOf (update_all ex5 (some "_ALL_")).muertes_depto
      ≠ ((deptNames ex5).map
          (fun d => totalOf (update_all ex5 (some d)).muertes_depto)).sum := by
  decide

/-- C5 (amended): provided every record has a department name and no
department name is the empty string or the `_ALL_` sentinel, the
all-departments total equals the sum of the per-department filtered totals
(partition consistency). -/
theorem dept_total_partition (rs : List Record)
    (hsome : ∀ r ∈ rs, r.departamento ≠ none)
    (hval : ∀ d ∈ deptNames rs, d ≠ "" ∧ d ≠ "_ALL_") :
    totalOf (update_all rs (some "_ALL_")).muertes_depto
      = ((deptNames rs).map
          (fun d => totalOf (update_all rs (some d)).muertes_depto)).sum := by
  have hall : applyFilter rs (some "_ALL_") = rs := by simp [applyFilter]
  have hL : totalOf (update_all rs (some "_ALL_")).muertes_depto = rs.length := by
    show totalOf (countByKey deptKey (applyFilter rs (some "_ALL_"))) = rs.length
    rw [hall]
    exact totalOf_countByKey deptKey rs hsome
  have hR : ∀ d ∈ deptNames rs,
      totalOf (update_all rs (some d)).muertes_depto
        = (rs.filter (fun r => decide (deptKey r = some d))).length := by
    intro d hd
    obtain ⟨hne, hnall⟩ := hval d hd
    have hfil : applyFilter rs (some d)
        = rs.filter (fun r => decide (r.departamento = some d)) := by
      simp [applyFilter, hne, hnall]
    show totalOf (countByKey deptKey (applyFilter rs (some d))) = _
    rw [hfil]
    exact totalOf_countByKey deptKey _
      (fun r hr => hsome r (List.mem_of_mem_filter hr))
  rw [hL, List.map_congr_left hR]
  exact (sum_counts deptKey (deptNames rs) rs (List.nodup_dedup _) (by
    intro r hr
    cases hkey : deptKey r with
    | none => exact absurd hkey (hsome r hr)
    | some d =>
      exact ⟨d, List.mem_dedup.mpr (List.mem_filterMap.mpr ⟨r, hr, hkey⟩), rfl⟩)).symm

/-- C5 (witness): partition consistency on a concrete two-department
table. -/
theorem dept_total_partition_w :
    totalOf (update_all ex9 (some "_ALL_")).muertes_depto
      = ((deptNames ex9).map
          (fun d => totalOf (update_all ex9 (some d)).muertes_depto)).sum :=
  dept_total_partition ex9 (by decide) (by decide)

/-- C6: the age labeler sends "7", "7.0" and " 7 " to the same label
`Primera infancia 1-4`, and sends "99" and "" to the sentinel no-info label
(spelled `Sin info` in the code). -/
theorem map_age_cases :
    map_age "7" = "Primera infancia 1-4" ∧
    map_age "7.0" = "Primera infancia 1-4" ∧
    map_age " 7 " = "Primera infancia 1-4" ∧
    map_age "99" = "Sin info" ∧ map_age "" = "Sin info" := by
  decide

/-- C7 (counterexample): the age lookup table's values are 11 distinct
label strings, not 10 as claimed. -/
theorem age_map_labels_cex : ¬ ((age_map.map Prod.snd).dedup.length = 10) := by
  decide

/-- C7 (amended): the age lookup's key space is exactly the stringified
integers "0" through "29"; it maps onto 11 fixed label strings (ten
life-stage labels plus `Edad desconocida / Sin información`); every key
outside the domain maps to the sentinel `Sin info`. -/
theorem age_map_table :
    age_map.map Prod.fst = (List.range 30).map (fun n => natStr n) ∧
    (age_map.map Prod.snd).dedup.length = 11 ∧
    ∀ k, k ∉ age_map.map Prod.fst → ageLookup k = "Sin info" := by
  refine ⟨by decide, by decide, ?_⟩
  intro k hk
  unfold ageLookup
  rw [lookup_none_of_not_mem k age_map hk]
  rfl

/-- C7 (witness): the out-of-domain key "99" maps to the sentinel. -/
theorem age_map_table_w : ageLookup "99" = "Sin info" :=
  age_map_table.2.2 "99" (by decide)

/-- C8: in the cause join, a record whose cause code (trimmed on both sides
while preparing the tables) matches some cause row gets that row's
description as its cause name; a record matching no row keeps its cause
code as cause name, and the cause name is never NaN when the cause code is
not. -/
theorem cause_join_name (rs : List GeoRec) (codes : List CodeRow) (o : CauseRec)
    (ho : o ∈ causeMerge rs codes) :
    (o.geo.base.cod_muerte ≠ none → o.causa ≠ none) ∧
    ((∃ c ∈ codes, o.geo.base.cod_muerte = some c.code) →
      ∃ c ∈ codes, o.geo.base.cod_muerte = some c.code ∧ o.causa = some c.name) ∧
    ((¬ ∃ c ∈ codes, o.geo.base.cod_muerte = some c.code) →
      o.causa = o.geo.base.cod_muerte) := by
  obtain ⟨-, hcase⟩ := mem_causeMerge ho
  refine ⟨?_, ?_, ?_⟩
  · intro hcd
    rcases hcase with ⟨-, hc⟩ | ⟨c, -, -, hc⟩
    · rw [hc]; exact hcd
    · rw [hc]; simp
  · rintro ⟨c, hcmem, hceq⟩
    rcases hcase with ⟨hnil, -⟩ | hx
    · exfalso
      have hmem : c ∈ codes.filter (causeKeyMatch o.geo) :=
        List.mem_filter.mpr ⟨hcmem, by simp [causeKeyMatch, hceq]⟩
      rw [hnil] at hmem
      cases hmem
    · exact hx
  · intro hno
    rcases hcase with ⟨-, hc⟩ | ⟨c, hcmem, hceq, -⟩
    · exact hc
    · exact absurd ⟨c, hcmem, hceq⟩ hno

/-- C8 (witness): a record with cause code X95 and no match in an empty
cause table passes the code through as the cause name. -/
theorem cause_join_name_w : exCauseOut.causa = exCauseOut.geo.base.cod_muerte :=
  (cause_join_name [exGeoX95] [] exCauseOut (by decide)).2.2 (by decide)

/-- C9 (counterexample): after selecting department "A" the summary card
still shows the startup counts over the full table, which differ from the
summary counts of the filtered table, so the summary is not freshly
recomputed by the selection. -/
theorem summary_not_recomputed_cex :
    (afterSelect ex9 (initialDashboard ex9) (some "A")).resumen
      ≠ summaryCounts (applyFilter ex9 (some "A")) := by
  decide

/-- C9 (amended): a dropdown selection recomputes exactly the callback's
outputs — the seven aggregate views (and the geo message) — while the
summary counts keep the value computed once at startup over the full
table. -/
theorem select_updates_views_only (rs : List Record) (d : Dashboard)
    (sel : Option String) :
    (afterSelect rs d sel).views = update_all rs sel ∧
    (afterSelect rs d sel).resumen = d.resumen ∧
    (initialDashboard rs).resumen = summaryCounts rs :=
  ⟨rfl, rfl, rfl⟩

/-- C10: a `None` or empty-string filter value is falsy, applies no
department restriction, and yields exactly the same seven aggregates as the
`_ALL_` sentinel. -/
theorem falsy_filter_all (rs : List Record) (sel : Option String)
    (h : sel = none ∨ sel = some "") :
    update_all rs sel = update_all rs (some "_ALL_") := by
  have h2 : applyFilter rs (some "_ALL_") = rs := by simp [applyFilter]
  have h1 : applyFilter rs sel = rs := by
    rcases h with rfl | rfl
    · rfl
    · simp [applyFilter]
  unfold update_all
  rw [h1, h2]

/-- C10 (witness): the `None` selection on a concrete table equals the
`_ALL_` selection. -/
theorem falsy_filter_all_w : update_all ex9 none = update_all ex9 (some "_ALL_") :=
  falsy_filter_all ex9 none (Or.inl rfl)

end App
